import Mathlib

/-!
Shallow embedding of `src/main.py` (multi-library PII redaction script).

The script wires three external redaction libraries (scrubadub, Microsoft
Presidio, pii-codex) into a line-by-line file processor.  The external
libraries are opaque: we model them as function parameters bundled in
`Capabilities`, each returning `Except String α` (a normal return, or a
raised exception carrying its message).  Presidio detections are never
inspected by the script beyond list-emptiness, so their payload is modelled
as `Nat`.

File processing is modelled on the sequence of lines that Python's file
iteration yields (each element keeps its trailing newline, except possibly
the last), and the observable effects of a run are collected explicitly:
the strings written to the output file, the line numbers at which a
progress notice is printed, the library calls performed, and the final
summary count.
-/

set_option autoImplicit false

/-- One call into an external library, as performed by the script:
`scrubadub.clean`, `analyzer.analyze`, `anonymizer.anonymize`, or
`pii_processor.redact`.  Recorded so that "capability X was (not) invoked"
is a statement about the run. -/
inductive LibCall where
  | scrubClean : String → LibCall
  | presidioAnalyze : String → LibCall
  | presidioAnonymize : String → List Nat → LibCall
  | piiRedact : String → LibCall
deriving DecidableEq

/-- The opaque external libraries, as used by `src/main.py`:
`scrubadub.clean`, `presidio_analyzer.analyze` (returning a detection
list), `presidio_anonymizer.anonymize` (returning the anonymized text),
and `pii_codex.redact`.  Each may raise (`Except.error` carries the
exception message). -/
structure Capabilities where
  scrubClean : String → Except String String
  presidioAnalyze : String → Except String (List Nat)
  presidioAnonymize : String → List Nat → Except String String
  piiRedact : String → Except String String

/-- The `MultiRedactor` instance state: the three per-library readiness
flags set in `__init__` (src/main.py lines 35-54). -/
structure MultiRedactor where
  scrubadub_ready : Bool
  presidio_ready : Bool
  pii_codex_ready : Bool
deriving DecidableEq

/-- Constructor `MultiRedactor.__init__` (src/main.py lines 35-54): `scrubadub_ready`
is set to `True` unconditionally; `presidio_ready` and `pii_codex_ready`
record whether the corresponding engine constructions succeeded or raised. -/
def MultiRedactor.init (presidioInit piiCodexInit : Except String Unit) :
    MultiRedactor where
  scrubadub_ready := true
  presidio_ready := match presidioInit with
    | .ok _ => true
    | .error _ => false
  pii_codex_ready := match piiCodexInit with
    | .ok _ => true
    | .error _ => false

/-- Result of one `redact_with_*` method call: the (unchanged, since the
method bodies assign no attribute) instance state, the returned string,
and the library calls performed. -/
structure StageResult where
  self : MultiRedactor
  text : String
  calls : List LibCall
deriving DecidableEq

/-- Method `redact_with_scrubadub` (src/main.py lines 56-61): return
`scrubadub.clean(text)`, or on any exception the tagged original text. -/
def redact_with_scrubadub (caps : Capabilities) (self : MultiRedactor)
    (text : String) : StageResult :=
  match caps.scrubClean text with
  | .ok r => ⟨self, r, [.scrubClean text]⟩
  | .error e => ⟨self, "[SCRUBADUB ERROR: " ++ e ++ "] " ++ text, [.scrubClean text]⟩

/-- Method `redact_with_presidio` (src/main.py lines 63-80): placeholder when not
ready; otherwise analyze, anonymize only when the detection list is
non-empty, and tag the original text on any exception. -/
def redact_with_presidio (caps : Capabilities) (self : MultiRedactor)
    (text : String) : StageResult :=
  if self.presidio_ready = false then
    ⟨self, "[PRESIDIO NOT AVAILABLE] " ++ text, []⟩
  else
    match caps.presidioAnalyze text with
    | .error e =>
        ⟨self, "[PRESIDIO ERROR: " ++ e ++ "] " ++ text, [.presidioAnalyze text]⟩
    | .ok results =>
        if results.isEmpty then
          ⟨self, text, [.presidioAnalyze text]⟩
        else
          match caps.presidioAnonymize text results with
          | .ok anonymized =>
              ⟨self, anonymized,
                [.presidioAnalyze text, .presidioAnonymize text results]⟩
          | .error e =>
              ⟨self, "[PRESIDIO ERROR: " ++ e ++ "] " ++ text,
                [.presidioAnalyze text, .presidioAnonymize text results]⟩

/-- Method `redact_with_pii_codex` (src/main.py lines 82-92): placeholder when not
ready; otherwise `pii_processor.redact(text)`, tagging the original text on
any exception. -/
def redact_with_pii_codex (caps : Capabilities) (self : MultiRedactor)
    (text : String) : StageResult :=
  if self.pii_codex_ready = false then
    ⟨self, "[PII-CODEX NOT AVAILABLE] " ++ text, []⟩
  else
    match caps.piiRedact text with
    | .ok r => ⟨self, r, [.piiRedact text]⟩
    | .error e => ⟨self, "[PII-CODEX ERROR: " ++ e ++ "] " ++ text, [.piiRedact text]⟩

/-- The per-line chain of src/main.py lines 132-135: scrubadub, then
presidio, then pii-codex, each receiving the previous result. -/
def redactLine (caps : Capabilities) (self : MultiRedactor) (text : String) :
    String :=
  (redact_with_pii_codex caps
    (redact_with_presidio caps
      (redact_with_scrubadub caps self text).self
      (redact_with_scrubadub caps self text).text).self
    (redact_with_presidio caps
      (redact_with_scrubadub caps self text).self
      (redact_with_scrubadub caps self text).text).text).text

/-- Python `line.rstrip("\n")`: remove every trailing newline character. -/
def rstripNewlines (s : String) : String :=
  ⟨(s.data.reverse.dropWhile (fun c => c == '\n')).reverse⟩

/-- Accumulated observations of the processing loop of `process_file`
(src/main.py lines 119-142): the final instance state, the `line_count`
counter, the strings passed to `outfile.write`, the 1-based line numbers
at which a progress notice is printed, and the library calls performed. -/
structure LoopResult where
  finalSelf : MultiRedactor
  line_count : Nat
  writes : List String
  progress : List Nat
  calls : List LibCall
deriving DecidableEq

/-- The `for line_num, line in enumerate(infile, 1)` loop of `process_file`
(src/main.py lines 120-142), starting at line number `lineNum` with counter
`count`: empty lines (after stripping trailing newlines) write a bare
newline and skip the rest of the body; non-empty lines are chained through
the three libraries, written with a trailing newline, counted, and every
100th line number prints a progress notice. -/
def processLoop (caps : Capabilities) :
    MultiRedactor → List String → Nat → Nat → LoopResult
  | self, [], _, count => ⟨self, count, [], [], []⟩
  | self, line :: rest, lineNum, count =>
    let content := rstripNewlines line
    if content = "" then
      let r := processLoop caps self rest (lineNum + 1) count
      ⟨r.finalSelf, r.line_count, "\n" :: r.writes, r.progress, r.calls⟩
    else
      let s1 := redact_with_scrubadub caps self content
      let s2 := redact_with_presidio caps s1.self s1.text
      let s3 := redact_with_pii_codex caps s2.self s2.text
      let r := processLoop caps s3.self rest (lineNum + 1) (count + 1)
      ⟨r.finalSelf, r.line_count,
        (s3.text ++ "\n") :: r.writes,
        (if lineNum % 100 = 0 then lineNum :: r.progress else r.progress),
        s1.calls ++ s2.calls ++ s3.calls ++ r.calls⟩

/-- Observable outcome of one `process_file` call (src/main.py lines
94-149): the Python return value (`True`/`False`), whether the output file
was opened (and hence created), the final instance state, the written
strings, the progress line numbers, the library calls, and the count
reported by the final success message (absent when processing aborted). -/
structure ProcessResult where
  returnValue : Bool
  outputOpened : Bool
  finalSelf : MultiRedactor
  writes : List String
  progress : List Nat
  calls : List LibCall
  summary : Option Nat
deriving DecidableEq

/-- Function `process_file` (src/main.py lines 94-149): when the input path does not
exist, report and return `False` before opening any output file; otherwise
open input and output, run the line loop, print the summary with
`line_count`, and return `True`.  `inputExists` models
`Path(input_file).exists()`; `inputLines` models the sequence of lines that
iterating the input file yields (trailing newline kept, except possibly on
the last line). -/
def process_file (caps : Capabilities) (self : MultiRedactor)
    (inputExists : Bool) (inputLines : List String) : ProcessResult :=
  if inputExists = false then
    ⟨false, false, self, [], [], [], none⟩
  else
    let r := processLoop caps self inputLines 1 0
    ⟨true, true, r.finalSelf, r.writes, r.progress, r.calls, some r.line_count⟩

/-- Exit-code model of `main` (src/main.py lines 186-194): exit code 1 when
`process_file` returned `False`, 0 otherwise. -/
def mainExitCode (r : ProcessResult) : Nat :=
  if r.returnValue then 0 else 1

/-- A string contains no newline character. -/
def newlineFree (s : String) : Prop := '\n' ∉ s.data

instance (s : String) : Decidable (newlineFree s) := by
  unfold newlineFree; infer_instance

/-- Concrete capability bundle for witnesses: every call succeeds, the
analyzer finds nothing. -/
def idCaps : Capabilities where
  scrubClean := fun s => .ok s
  presidioAnalyze := fun _ => .ok []
  presidioAnonymize := fun s _ => .ok s
  piiRedact := fun s => .ok s

/-- Concrete capability bundle for witnesses: every call returns the fixed
newline-free string "X". -/
def constCaps : Capabilities where
  scrubClean := fun _ => .ok "X"
  presidioAnalyze := fun _ => .ok []
  presidioAnonymize := fun _ _ => .ok "X"
  piiRedact := fun _ => .ok "X"

/-- Concrete instance state with every library ready. -/
def allReady : MultiRedactor := ⟨true, true, true⟩

example : rstripNewlines "ab\n" = "ab" := by decide
example : rstripNewlines "\n" = "" := by decide
example : rstripNewlines "ab" = "ab" := by decide
example :
    (process_file idCaps allReady true ["a\n", "\n", "b"]).writes =
      ["a\n", "\n", "b\n"] := by decide
example :
    (process_file idCaps allReady true ["a\n", "\n", "b"]).summary = some 2 := by
  decide

/-! ## Helper lemmas: the method bodies assign no attribute, so the
instance state passes through every stage unchanged. -/

@[simp] lemma redact_with_scrubadub_self (caps : Capabilities)
    (self : MultiRedactor) (text : String) :
    (redact_with_scrubadub caps self text).self = self := by
  unfold redact_with_scrubadub
  cases caps.scrubClean text <;> rfl

@[simp] lemma redact_with_presidio_self (caps : Capabilities)
    (self : MultiRedactor) (text : String) :
    (redact_with_presidio caps self text).self = self := by
  unfold redact_with_presidio
  repeat' split
  all_goals rfl

@[simp] lemma redact_with_pii_codex_self (caps : Capabilities)
    (self : MultiRedactor) (text : String) :
    (redact_with_pii_codex caps self text).self = self := by
  unfold redact_with_pii_codex
  repeat' split
  all_goals rfl

lemma processLoop_finalSelf (caps : Capabilities) (self : MultiRedactor)
    (lines : List String) (lineNum count : Nat) :
    (processLoop caps self lines lineNum count).finalSelf = self := by
  induction lines generalizing self lineNum count with
  | nil => rfl
  | cons l rest ih =>
    unfold processLoop
    by_cases h : rstripNewlines l = "" <;> simp [h, ih]

/-- The calls performed by the per-line chain on one non-empty content. -/
def lineCalls (caps : Capabilities) (self : MultiRedactor) (content : String) :
    List LibCall :=
  (redact_with_scrubadub caps self content).calls ++
    (redact_with_presidio caps self
      (redact_with_scrubadub caps self content).text).calls ++
    (redact_with_pii_codex caps
      (redact_with_presidio caps self
        (redact_with_scrubadub caps self content).text).self
      (redact_with_presidio caps self
        (redact_with_scrubadub caps self content).text).text).calls

lemma processLoop_writes (caps : Capabilities) (self : MultiRedactor)
    (lines : List String) (lineNum count : Nat) :
    (processLoop caps self lines lineNum count).writes =
      lines.map (fun l =>
        if rstripNewlines l = "" then "\n"
        else redactLine caps self (rstripNewlines l) ++ "\n") := by
  induction lines generalizing self lineNum count with
  | nil => rfl
  | cons l rest ih =>
    unfold processLoop
    by_cases h : rstripNewlines l = "" <;>
      simp [h, ih, redactLine]

lemma processLoop_line_count (caps : Capabilities) (self : MultiRedactor)
    (lines : List String) (lineNum count : Nat) :
    (processLoop caps self lines lineNum count).line_count =
      count + lines.countP (fun l => !(rstripNewlines l == "")) := by
  induction lines generalizing self lineNum count with
  | nil => simp [processLoop]
  | cons l rest ih =>
    unfold processLoop
    by_cases h : rstripNewlines l = ""
    all_goals simp [h, ih, List.countP_cons]
    all_goals omega

lemma processLoop_calls (caps : Capabilities) (self : MultiRedactor)
    (lines : List String) (lineNum count : Nat) :
    (processLoop caps self lines lineNum count).calls =
      lines.flatMap (fun l =>
        if rstripNewlines l = "" then []
        else lineCalls caps self (rstripNewlines l)) := by
  induction lines generalizing self lineNum count with
  | nil => rfl
  | cons l rest ih =>
    unfold processLoop
    by_cases h : rstripNewlines l = "" <;>
      simp [h, ih, lineCalls]

lemma processLoop_progress_cons (caps : Capabilities) (self : MultiRedactor)
    (l : String) (rest : List String) (lineNum count : Nat) :
    (processLoop caps self (l :: rest) lineNum count).progress =
      if rstripNewlines l = "" then
        (processLoop caps self rest (lineNum + 1) count).progress
      else if lineNum % 100 = 0 then
        lineNum :: (processLoop caps self rest (lineNum + 1) (count + 1)).progress
      else
        (processLoop caps self rest (lineNum + 1) (count + 1)).progress := by
  conv_lhs => unfold processLoop
  by_cases h : rstripNewlines l = ""
  · simp [h]
  · by_cases hn : lineNum % 100 = 0 <;> simp [h, hn]

lemma processLoop_progress_mem (caps : Capabilities) (self : MultiRedactor)
    (lines : List String) (lineNum count m : Nat) :
    m ∈ (processLoop caps self lines lineNum count).progress ↔
      (m % 100 = 0 ∧ ∃ i, i < lines.length ∧ m = lineNum + i ∧
        rstripNewlines (lines.getD i "") ≠ "") := by
  induction lines generalizing self lineNum count with
  | nil => simp [processLoop]
  | cons l rest ih =>
    rw [processLoop_progress_cons]
    by_cases h : rstripNewlines l = ""
    · rw [if_pos h, ih]
      constructor
      · rintro ⟨hm, i, hi, rfl, hne⟩
        exact ⟨hm, i + 1, by simpa using hi, by omega, by simpa using hne⟩
      · rintro ⟨hm, i, hi, rfl, hne⟩
        match i with
        | 0 => simp [h] at hne
        | j + 1 =>
          exact ⟨hm, j, by simpa using hi, by omega, by simpa using hne⟩
    · rw [if_neg h]
      by_cases hn : lineNum % 100 = 0
      · rw [if_pos hn, List.mem_cons, ih]
        constructor
        · rintro (rfl | ⟨hm, i, hi, rfl, hne⟩)
          · exact ⟨hn, 0, by simp, by omega, by simpa using h⟩
          · exact ⟨hm, i + 1, by simpa using hi, by omega, by simpa using hne⟩
        · rintro ⟨hm, i, hi, rfl, hne⟩
          match i with
          | 0 => exact Or.inl (by omega)
          | j + 1 =>
            exact Or.inr ⟨hm, j, by simpa using hi, by omega, by simpa using hne⟩
      · rw [if_neg hn, ih]
        constructor
        · rintro ⟨hm, i, hi, rfl, hne⟩
          exact ⟨hm, i + 1, by simpa using hi, by omega, by simpa using hne⟩
        · rintro ⟨hm, i, hi, rfl, hne⟩
          match i with
          | 0 => omega
          | j + 1 =>
            exact ⟨hm, j, by simpa using hi, by omega, by simpa using hne⟩

/-! ## Claim theorems -/

/-- C1: For every non-empty input line, when all three capabilities are
available (both readiness flags true; `scrubadub_ready` is always true)
and none of the underlying calls raises, the written output line is the
sequential composition: scrubadub first, then the Presidio
analyze/anonymize pair, then pii-codex, each stage receiving the previous
stage's output, followed by the single appended newline.  The Presidio
stage's value is the analyzed text itself when the detection list is
empty, and the anonymizer's output otherwise. -/
theorem C1_sequential_composition (caps : Capabilities)
    (self : MultiRedactor) (c s p r : String) (ds : List Nat)
    (hpr : self.presidio_ready = true)
    (hcr : self.pii_codex_ready = true)
    (hscrub : caps.scrubClean c = .ok s)
    (hanalyze : caps.presidioAnalyze s = .ok ds)
    (hanon : ds.isEmpty = false → caps.presidioAnonymize s ds = .ok p)
    (hredact : caps.piiRedact (if ds.isEmpty then s else p) = .ok r)
    (lines : List String) (i : Nat) (hi : i < lines.length)
    (hc : rstripNewlines (lines.getD i "") = c) (hne : c ≠ "") :
    (process_file caps self true lines).writes.getD i "" = r ++ "\n" := by
  have hchain : redactLine caps self c = r := by
    by_cases hds : ds.isEmpty = true
    · have hr : caps.piiRedact s = .ok r := by simpa [hds] using hredact
      unfold redactLine redact_with_scrubadub redact_with_presidio
        redact_with_pii_codex
      rw [hscrub]
      simp [hpr, hcr, hanalyze, hds, hr]
    · have hf : ds.isEmpty = false := by simpa using hds
      have hr : caps.piiRedact p = .ok r := by simpa [hf] using hredact
      unfold redactLine redact_with_scrubadub redact_with_presidio
        redact_with_pii_codex
      rw [hscrub]
      simp [hpr, hcr, hanalyze, hf, hanon hf, hr]
  have hw : (process_file caps self true lines).writes =
      lines.map (fun l => if rstripNewlines l = "" then "\n"
        else redactLine caps self (rstripNewlines l) ++ "\n") :=
    processLoop_writes caps self lines 1 0
  have hlen : i < (lines.map (fun l => if rstripNewlines l = "" then "\n"
      else redactLine caps self (rstripNewlines l) ++ "\n")).length := by
    simpa using hi
  rw [hw, List.getD_eq_getElem _ _ hlen, List.getElem_map]
  have hc2 : rstripNewlines lines[i] = c := by
    rw [← List.getD_eq_getElem lines "" hi]
    exact hc
  rw [hc2, if_neg hne, hchain]

/-- C2 is false as stated: `process_file` returns the boolean `True` on
success, not the processed-line count.  The two runs below process 2 and 1
non-empty lines respectively (as the printed summary records), yet the
return value is the same `true` in both, so the return value is not the
count of non-empty lines. -/
theorem C2_counterexample :
    (process_file idCaps allReady true ["a\n", "b\n"]).summary = some 2 ∧
    (process_file idCaps allReady true ["a\n"]).summary = some 1 ∧
    (process_file idCaps allReady true ["a\n", "b\n"]).returnValue = true ∧
    (process_file idCaps allReady true ["a\n"]).returnValue = true := by
  decide

/-- C2 (amended): on success `process_file` returns `True`, and the count
it reports in its final summary message equals the number of input lines
whose content is non-empty after stripping the trailing newline. -/
theorem C2_amended_returns_true_and_reports_count (caps : Capabilities)
    (self : MultiRedactor) (lines : List String) :
    (process_file caps self true lines).returnValue = true ∧
    (process_file caps self true lines).summary =
      some (lines.countP (fun l => !(rstripNewlines l == ""))) := by
  refine ⟨rfl, ?_⟩
  show some (processLoop caps self lines 1 0).line_count = _
  rw [processLoop_line_count]
  simp

/-- C7: when the input path does not exist, `process_file` returns `False`
before opening the output file: no output is created, nothing is written,
no progress is printed, no library is called, no summary is reported, and
`main` exits with code 1. -/
theorem C7_missing_input_aborts (caps : Capabilities)
    (self : MultiRedactor) (lines : List String) :
    process_file caps self false lines =
      ⟨false, false, self, [], [], [], none⟩ ∧
    mainExitCode (process_file caps self false lines) = 1 :=
  ⟨rfl, rfl⟩

/-- C8: the three readiness flags are assigned exactly once, in
`__init__` (unconditionally `True` for scrubadub, the construction outcome
for the other two), and no method call modifies the instance state:
each `redact_with_*`, the processing loop, and `process_file` all return
the instance state they were given. -/
theorem C8_flags_set_once_never_modified (pInit cInit : Except String Unit)
    (caps : Capabilities) (self : MultiRedactor) (text : String)
    (lines inputLines : List String) (lineNum count : Nat)
    (inputExists : Bool) :
    ((MultiRedactor.init pInit cInit).scrubadub_ready = true) ∧
    (∀ u, pInit = .ok u →
      (MultiRedactor.init pInit cInit).presidio_ready = true) ∧
    (∀ er, pInit = .error er →
      (MultiRedactor.init pInit cInit).presidio_ready = false) ∧
    (∀ u, cInit = .ok u →
      (MultiRedactor.init pInit cInit).pii_codex_ready = true) ∧
    (∀ er, cInit = .error er →
      (MultiRedactor.init pInit cInit).pii_codex_ready = false) ∧
    ((redact_with_scrubadub caps self text).self = self) ∧
    ((redact_with_presidio caps self text).self = self) ∧
    ((redact_with_pii_codex caps self text).self = self) ∧
    ((processLoop caps self lines lineNum count).finalSelf = self) ∧
    ((process_file caps self inputExists inputLines).finalSelf = self) := by
  refine ⟨rfl, ?_, ?_, ?_, ?_,
    redact_with_scrubadub_self caps self text,
    redact_with_presidio_self caps self text,
    redact_with_pii_codex_self caps self text,
    processLoop_finalSelf caps self lines lineNum count, ?_⟩
  · rintro u rfl; rfl
  · rintro er rfl; rfl
  · rintro u rfl; rfl
  · rintro er rfl; rfl
  · cases inputExists
    · rfl
    · exact processLoop_finalSelf caps self inputLines 1 0

/-- Witness for C8 at concrete construction outcomes: Presidio
construction succeeded, pii-codex construction raised. -/
theorem C8_witness :
    (MultiRedactor.init (.ok ()) (.error "boom")).presidio_ready = true ∧
    (MultiRedactor.init (.ok ()) (.error "boom")).pii_codex_ready = false :=
  ⟨(C8_flags_set_once_never_modified (.ok ()) (.error "boom") idCaps allReady
      "x" [] [] 1 0 true).2.1 () rfl,
    (C8_flags_set_once_never_modified (.ok ()) (.error "boom") idCaps allReady
      "x" [] [] 1 0 true).2.2.2.2.1 "boom" rfl⟩

/-- C9: when Presidio is ready and its analyzer returns an empty detection
list, the stage returns the text unchanged and performs exactly the one
analyze call — the anonymizer is never invoked. -/
theorem C9_empty_detections_identity (caps : Capabilities)
    (self : MultiRedactor) (text : String)
    (hready : self.presidio_ready = true)
    (hempty : caps.presidioAnalyze text = .ok []) :
    redact_with_presidio caps self text =
      ⟨self, text, [.presidioAnalyze text]⟩ := by
  unfold redact_with_presidio
  simp [hready, hempty]

/-- Witness for C9 at a concrete state and capability bundle. -/
theorem C9_witness :
    redact_with_presidio idCaps allReady "hello" =
      ⟨allReady, "hello", [.presidioAnalyze "hello"]⟩ :=
  C9_empty_detections_identity idCaps allReady "hello" rfl rfl

/-- C10: the scrubadub stage has no unavailability path: `__init__` sets
`scrubadub_ready` to `True` unconditionally, `redact_with_scrubadub` never
consults the instance state (its output is the same for any two states),
and its result is always either `scrubadub.clean(text)` or the
SCRUBADUB ERROR tag prefixed to the text — there is no branch producing a
SCRUBADUB NOT AVAILABLE placeholder. -/
theorem C10_scrubadub_no_unavailable_path (pInit cInit : Except String Unit)
    (caps : Capabilities) (self other : MultiRedactor) (text : String) :
    (MultiRedactor.init pInit cInit).scrubadub_ready = true ∧
    (redact_with_scrubadub caps self text).text =
      (redact_with_scrubadub caps other text).text ∧
    ((∃ r, caps.scrubClean text = .ok r ∧
        (redact_with_scrubadub caps self text).text = r) ∨
      (∃ e, caps.scrubClean text = .error e ∧
        (redact_with_scrubadub caps self text).text =
          "[SCRUBADUB ERROR: " ++ e ++ "] " ++ text)) := by
  refine ⟨rfl, ?_, ?_⟩
  · unfold redact_with_scrubadub
    cases caps.scrubClean text <;> rfl
  · unfold redact_with_scrubadub
    cases h : caps.scrubClean text with
    | ok r => exact Or.inl ⟨r, rfl, rfl⟩
    | error e => exact Or.inr ⟨e, rfl, rfl⟩

/-- Witness for C1: one-line file, every library call succeeds and the
analyzer finds nothing, so the line passes through unchanged. -/
theorem C1_witness :
    (process_file idCaps allReady true ["bob\n"]).writes.getD 0 "" =
      "bob" ++ "\n" :=
  C1_sequential_composition idCaps allReady "bob" "bob" "bob" "bob" []
    rfl rfl rfl rfl (fun h => absurd h (by decide)) rfl
    ["bob\n"] 0 (by decide) (by decide) (by decide)

/-- Removing an element on which `p` is false does not change `countP`. -/
lemma countP_eraseIdx_of_false (p : String → Bool) :
    ∀ (lines : List String) (i : Nat), i < lines.length →
      p (lines.getD i "") = false →
      lines.countP p = (lines.eraseIdx i).countP p := by
  intro lines
  induction lines with
  | nil => intro i hi _; simp at hi
  | cons l rest ih =>
    intro i hi hp
    match i with
    | 0 =>
      simp only [List.getD_cons_zero] at hp
      simp [List.countP_cons, hp]
    | j + 1 =>
      have hrec := ih j (by simpa using hi) (by simpa using hp)
      simp [List.countP_cons, hrec]

/-- Removing an element on which `f` is empty does not change `flatMap`. -/
lemma flatMap_eraseIdx_of_nil (f : String → List LibCall) :
    ∀ (lines : List String) (i : Nat), i < lines.length →
      f (lines.getD i "") = [] →
      lines.flatMap f = (lines.eraseIdx i).flatMap f := by
  intro lines
  induction lines with
  | nil => intro i hi _; simp at hi
  | cons l rest ih =>
    intro i hi hf
    match i with
    | 0 =>
      simp only [List.getD_cons_zero] at hf
      simp [hf]
    | j + 1 =>
      have hrec := ih j (by simpa using hi) (by simpa using hf)
      simp [hrec]

/-- C4: an input line whose content is empty after stripping the trailing
newline is written as exactly one bare newline, is not counted toward the
processed-line count (removing it from the input leaves the reported count
unchanged), and is passed to no redaction library (removing it leaves the
sequence of library calls unchanged). -/
theorem C4_empty_line_handling (caps : Capabilities)
    (self : MultiRedactor) (lines : List String) (i : Nat)
    (hi : i < lines.length)
    (he : rstripNewlines (lines.getD i "") = "") :
    (process_file caps self true lines).writes.getD i "" = "\n" ∧
    (process_file caps self true lines).summary =
      (process_file caps self true (lines.eraseIdx i)).summary ∧
    (process_file caps self true lines).calls =
      (process_file caps self true (lines.eraseIdx i)).calls := by
  have hp : (!(rstripNewlines (lines.getD i "") == "")) = false := by
    rw [he]
    decide
  have hf : (if rstripNewlines (lines.getD i "") = "" then ([] : List LibCall)
      else lineCalls caps self (rstripNewlines (lines.getD i ""))) = [] := by
    rw [he, if_pos rfl]
  refine ⟨?_, ?_, ?_⟩
  · have hw : (process_file caps self true lines).writes =
        lines.map (fun l => if rstripNewlines l = "" then "\n"
          else redactLine caps self (rstripNewlines l) ++ "\n") :=
      processLoop_writes caps self lines 1 0
    have hlen : i < (lines.map (fun l => if rstripNewlines l = "" then "\n"
        else redactLine caps self (rstripNewlines l) ++ "\n")).length := by
      simpa using hi
    rw [hw, List.getD_eq_getElem _ _ hlen, List.getElem_map]
    have he2 : rstripNewlines lines[i] = "" := by
      rw [← List.getD_eq_getElem lines "" hi]
      exact he
    rw [he2, if_pos rfl]
  · show some (processLoop caps self lines 1 0).line_count =
      some (processLoop caps self (lines.eraseIdx i) 1 0).line_count
    rw [processLoop_line_count, processLoop_line_count,
      countP_eraseIdx_of_false _ lines i hi hp]
  · show (processLoop caps self lines 1 0).calls =
      (processLoop caps self (lines.eraseIdx i) 1 0).calls
    rw [processLoop_calls, processLoop_calls,
      flatMap_eraseIdx_of_nil _ lines i hi hf]

/-- Witness for C4: a file whose only line is blank. -/
theorem C4_witness :
    (process_file idCaps allReady true ["\n"]).writes.getD 0 "" = "\n" ∧
    (process_file idCaps allReady true ["\n"]).summary =
      (process_file idCaps allReady true (["\n"].eraseIdx 0)).summary ∧
    (process_file idCaps allReady true ["\n"]).calls =
      (process_file idCaps allReady true (["\n"].eraseIdx 0)).calls :=
  C4_empty_line_handling idCaps allReady ["\n"] 0 (by decide) (by decide)

/-- C5: on success, exactly one string is written per input line (a final
input line without a trailing newline still yields one written line), and
— provided the per-line redaction chain never returns text containing a
newline character — every written string is a newline-free body followed
by exactly one newline character. -/
theorem C5_line_count_invariant (caps : Capabilities)
    (self : MultiRedactor) (lines : List String)
    (hchain : ∀ t, newlineFree (redactLine caps self t)) :
    (process_file caps self true lines).writes.length = lines.length ∧
    ∀ w ∈ (process_file caps self true lines).writes,
      ∃ body, w = body ++ "\n" ∧ newlineFree body := by
  have hw : (process_file caps self true lines).writes =
      lines.map (fun l => if rstripNewlines l = "" then "\n"
        else redactLine caps self (rstripNewlines l) ++ "\n") :=
    processLoop_writes caps self lines 1 0
  constructor
  · rw [hw, List.length_map]
  · intro w hwmem
    rw [hw] at hwmem
    obtain ⟨l, _, rfl⟩ := List.mem_map.mp hwmem
    by_cases h : rstripNewlines l = ""
    · exact ⟨"", by rw [if_pos h]; rfl, by decide⟩
    · exact ⟨redactLine caps self (rstripNewlines l), by rw [if_neg h],
        hchain (rstripNewlines l)⟩

/-- Witness for C5: two lines, the second without a trailing newline; the
constant capability bundle always returns the newline-free "X". -/
theorem C5_witness :
    (process_file constCaps allReady true ["a\n", "b"]).writes.length =
      (["a\n", "b"] : List String).length ∧
    ∀ w ∈ (process_file constCaps allReady true ["a\n", "b"]).writes,
      ∃ body, w = body ++ "\n" ∧ newlineFree body :=
  C5_line_count_invariant constCaps allReady ["a\n", "b"]
    (fun _ => show newlineFree "X" by decide)

/-- C6: per-stage containment. A stage marked unavailable returns the
literal NOT AVAILABLE tag concatenated before its unmodified input; a
stage whose underlying call raises returns the ERROR tag with the message
concatenated before its unmodified input; every branch returns a value
(no exception escapes, the stages being total functions), and the chain
unconditionally feeds each stage's result — tagged or not — to the next
stage. -/
theorem C6_stage_error_containment (caps : Capabilities)
    (self : MultiRedactor) (text e : String) (ds : List Nat) :
    (self.presidio_ready = false →
      redact_with_presidio caps self text =
        ⟨self, "[PRESIDIO NOT AVAILABLE] " ++ text, []⟩) ∧
    (self.pii_codex_ready = false →
      redact_with_pii_codex caps self text =
        ⟨self, "[PII-CODEX NOT AVAILABLE] " ++ text, []⟩) ∧
    (caps.scrubClean text = .error e →
      (redact_with_scrubadub caps self text).text =
        "[SCRUBADUB ERROR: " ++ e ++ "] " ++ text) ∧
    (self.presidio_ready = true → caps.presidioAnalyze text = .error e →
      (redact_with_presidio caps self text).text =
        "[PRESIDIO ERROR: " ++ e ++ "] " ++ text) ∧
    (self.presidio_ready = true →
      caps.presidioAnalyze text = .ok ds → ds.isEmpty = false →
      caps.presidioAnonymize text ds = .error e →
      (redact_with_presidio caps self text).text =
        "[PRESIDIO ERROR: " ++ e ++ "] " ++ text) ∧
    (self.pii_codex_ready = true → caps.piiRedact text = .error e →
      (redact_with_pii_codex caps self text).text =
        "[PII-CODEX ERROR: " ++ e ++ "] " ++ text) ∧
    (redactLine caps self text =
      (redact_with_pii_codex caps self
        (redact_with_presidio caps self
          (redact_with_scrubadub caps self text).text).text).text) := by
  refine ⟨?_, ?_, ?_, ?_, ?_, ?_, ?_⟩
  · intro h
    unfold redact_with_presidio
    rw [if_pos h]
  · intro h
    unfold redact_with_pii_codex
    rw [if_pos h]
  · intro h
    simp [redact_with_scrubadub, h]
  · intro h1 h2
    simp [redact_with_presidio, h1, h2]
  · intro h1 h2 h3 h4
    simp [redact_with_presidio, h1, h2, h3, h4]
  · intro h1 h2
    simp [redact_with_pii_codex, h1, h2]
  · simp [redactLine]

/-- Witness for C6: a state with Presidio unavailable produces exactly the
tagged text, at a concrete input. -/
theorem C6_witness :
    redact_with_presidio idCaps ⟨true, false, true⟩ "x" =
      ⟨⟨true, false, true⟩, "[PRESIDIO NOT AVAILABLE] " ++ "x", []⟩ :=
  (C6_stage_error_containment idCaps ⟨true, false, true⟩ "x" "" []).1 rfl

/-- A 100-line input whose 100th line is blank. -/
def blankHundredth : List String := List.replicate 99 "a\n" ++ ["\n"]

/-- C3 is false as stated: the loop skips an empty line with `continue`
before reaching the progress check, so an empty line emits no progress
notice even when its 1-based line number is a multiple of 100.  On this
100-line input whose line 100 is blank, no progress notice at all is
emitted, although the claim requires one at line 100. -/
theorem C3_counterexample :
    blankHundredth.length = 100 ∧
    (100 : Nat) % 100 = 0 ∧
    rstripNewlines (blankHundredth.getD 99 "") = "" ∧
    (process_file idCaps allReady true blankHundredth).progress = [] := by
  decide

/-- C3 (amended): a progress notice is emitted exactly at the lines whose
1-based line number is a multiple of 100 and whose content is non-empty
after stripping the trailing newline; empty lines are skipped before the
progress check, so they never emit a notice.  In particular, a 250-line
input whose lines 100 and 200 are non-empty emits exactly the two notices
at lines 100 and 200. -/
theorem C3_amended_progress_on_nonempty_hundredths (caps : Capabilities)
    (self : MultiRedactor) (lines : List String) (m : Nat) :
    (m ∈ (process_file caps self true lines).progress ↔
      (m % 100 = 0 ∧ ∃ i, i < lines.length ∧ m = i + 1 ∧
        rstripNewlines (lines.getD i "") ≠ "")) ∧
    (process_file idCaps allReady true
      (List.replicate 250 "x\n")).progress = [100, 200] := by
  constructor
  · show m ∈ (processLoop caps self lines 1 0).progress ↔ _
    rw [processLoop_progress_mem]
    constructor
    · rintro ⟨hm, i, hilt, rfl, hne⟩
      exact ⟨hm, i, hilt, by omega, hne⟩
    · rintro ⟨hm, i, hilt, rfl, hne⟩
      exact ⟨hm, i, hilt, by omega, hne⟩
  · decide
